import Mathlib

/-!
Verification of `ArcadeShapeAnimation.py` against its specification.

The Python program animates shapes (falling snow drops, rotating wheels
with radial spokes, bouncing balls) on an 800x560 screen.  We embed the
program shallowly:

* numeric fields of the entities (positions, sizes, per-tick deltas)
  become `ℚ`;
* the oscillation counter (a Python `int` starting at 0 and only ever
  incremented or reset to 0) becomes `ℕ`;
* colors (Python tuples of ints, RGB or RGBA) become `List ℕ`;
* the geometry built by `Wheel.__init__` is embedded generically over a
  field `α`, with the constant `pi` and the functions `cos` and `sin`
  passed as parameters so that the construction itself stays computable;
  the geometric theorems instantiate `α := ℝ` with `Real.pi`,
  `Real.cos`, `Real.sin`;
* the `arcade.ShapeElementList` owned by each entity becomes a `Batch`
  record holding the world transform and the list of primitive
  descriptors appended at construction, and issuing a draw call is
  recorded as an explicit `RenderCall` event;
* `random.randrange` calls in `GamePlay.setup` are abstracted as an
  oracle `ℕ → SnowRand` giving the raw draws of each loop iteration.
-/

/-- Module constant `SCREEN_WIDTH = 800`. -/
def SCREEN_WIDTH : ℚ := 800

/-- Module constant `SCREEN_HEIGHT = 560`. -/
def SCREEN_HEIGHT : ℚ := 560

/-- Module constant `numSnowDrops = 250`, set in `GamePlay.__init__`. -/
def numSnowDrops : ℕ := 250

/-- The mutable state installed by `Shape.__init__` (the screen-derived
fields `swd`, `sht`, `cx`, `cy` are constants of the module and are left
implicit). -/
structure ShapeState where
  x : ℚ
  y : ℚ
  width : ℚ
  height : ℚ
  angle : ℚ
  delta_x : ℚ
  delta_y : ℚ
  delta_angle : ℚ
  color : List ℕ
  count : ℕ
deriving DecidableEq, Repr

/-- `Shape.__init__`: every kinematic field from the arguments and
`count = 0`. -/
def shapeInit (x y width height angle delta_x delta_y delta_angle : ℚ)
    (color : List ℕ) : ShapeState :=
  { x := x, y := y, width := width, height := height, angle := angle,
    delta_x := delta_x, delta_y := delta_y, delta_angle := delta_angle,
    color := color, count := 0 }

/-- `Shape.move`: add the deltas to `x`, `y` and `angle`, then run the
four sequential bounce checks; each check tests the already-updated
position together with the current delta sign. -/
def shapeMove (s : ShapeState) : ShapeState :=
  let s1 : ShapeState :=
    { s with x := s.x + s.delta_x, y := s.y + s.delta_y,
             angle := s.angle + s.delta_angle }
  let s2 : ShapeState :=
    if s1.x < 0 ∧ s1.delta_x < 0 then { s1 with delta_x := -s1.delta_x } else s1
  let s3 : ShapeState :=
    if s2.y < 0 ∧ s2.delta_y < 0 then { s2 with delta_y := -s2.delta_y } else s2
  let s4 : ShapeState :=
    if s3.x > SCREEN_WIDTH ∧ s3.delta_x > 0 then
      { s3 with delta_x := -s3.delta_x } else s3
  if s4.y > SCREEN_HEIGHT ∧ s4.delta_y > 0 then
    { s4 with delta_y := -s4.delta_y } else s4

/-- `SnowDrop.move`: lateral step, counter increment, oscillation flip of
`delta_x` when the counter exceeds 4 (with reset to 0), downward step by
`delta_y`, and vertical wrap to `SCREEN_HEIGHT + 10` when `y` falls
below 0. -/
def snowMove (s : ShapeState) : ShapeState :=
  let s1 : ShapeState := { s with x := s.x + s.delta_x, count := s.count + 1 }
  let s2 : ShapeState :=
    if s1.count > 4 then { s1 with delta_x := -s1.delta_x, count := 0 } else s1
  let s3 : ShapeState := { s2 with y := s2.y - s2.delta_y }
  if s3.y < 0 then { s3 with y := SCREEN_HEIGHT + 10 } else s3

/-- The joint dynamics of the pair (`count`, `delta_x`) under
`SnowDrop.move`; these two fields evolve independently of the rest of
the state. -/
def cdStep (p : ℕ × ℚ) : ℕ × ℚ :=
  if p.1 + 1 > 4 then (0, -p.2) else (p.1 + 1, p.2)

/-- The three concrete subclasses of `Shape` that the scene creates. -/
inductive EKind where
  | snowDrop
  | wheel
  | bouncingBall
deriving DecidableEq, Repr

/-- A scene entity: its class tag together with the `Shape` state.  The
owned `ShapeElementList` batch is embedded separately (`Batch`,
`wheelShapeList`), since `move` never touches it. -/
structure Entity where
  kind : EKind
  state : ShapeState
deriving DecidableEq, Repr

/-- Dynamic dispatch of `move`: `SnowDrop` overrides it, `Wheel` and
`BouncingBall` inherit `Shape.move`. -/
def entityMove (e : Entity) : Entity :=
  match e.kind with
  | .snowDrop => { e with state := snowMove e.state }
  | .wheel => { e with state := shapeMove e.state }
  | .bouncingBall => { e with state := shapeMove e.state }

/-- All three per-tick deltas of a state are zero. -/
def zeroDeltas (s : ShapeState) : Prop :=
  s.delta_x = 0 ∧ s.delta_y = 0 ∧ s.delta_angle = 0

/-- The transform an entity pushes into its batch when it is drawn:
`(center_x, center_y, angle)` from the entity's current state. -/
def entityDrawEvent (e : Entity) : ℚ × ℚ × ℚ := (e.state.x, e.state.y, e.state.angle)

/-- `GamePlay.on_update` (the `dt` argument is ignored by the code):
call `move()` on every entity of `shapeList` in list order. -/
def onUpdate : List Entity → List Entity
  | [] => []
  | e :: rest => entityMove e :: onUpdate rest

/-- `GamePlay.on_draw` after `arcade.start_render()`: call `draw()` on
every entity of `shapeList` in list order; we record the sequence of
transforms pushed to the render backend, in order. -/
def onDrawEvents : List Entity → List (ℚ × ℚ × ℚ)
  | [] => []
  | e :: rest => entityDrawEvent e :: onDrawEvents rest

/-- Default element used for safe list indexing in theorem statements. -/
def defaultEntity : Entity :=
  { kind := .snowDrop, state := shapeInit 0 0 20 20 0 0 0 0 [255, 0, 0] }

/-- The raw values drawn by the five `random.randrange` calls of one
iteration of the setup loop (`x`, `y`, `width`, `height` and the two
integer draws from `randrange(5, 8)` that are divided by 10). -/
structure SnowRand where
  x : ℚ
  y : ℚ
  width : ℚ
  height : ℚ
  dxRaw : ℚ
  dyRaw : ℚ

/-- One `SnowDrop(...)` construction of the setup loop: divide the raw
delta draws by 10, negate `dx` on odd iterations, double the size every
tenth iteration, then call the constructor with `angle = 0`,
`dAngle = 0` and the white RGBA color. -/
def mkSnowDrop (n : ℕ) (r : SnowRand) : Entity :=
  let dx0 := r.dxRaw / 10
  let dy := r.dyRaw / 10
  let dx := if n % 2 > 0 then -dx0 else dx0
  let w := if n % 10 = 0 then 2 * r.width else r.width
  let h := if n % 10 = 0 then 2 * r.height else r.height
  { kind := .snowDrop,
    state := shapeInit r.x r.y w h 0 dx dy 0 [255, 255, 255, 255] }

/-- `GamePlay` field `cx = SCREEN_WIDTH / 2`. -/
def sceneCx : ℚ := SCREEN_WIDTH / 2

/-- `GamePlay` field `cy = SCREEN_HEIGHT / 2`. -/
def sceneCy : ℚ := SCREEN_HEIGHT / 2

/-- `Wheel.__init__` as far as the kinematic state is concerned:
`super().__init__` is called with only the three deltas (so position,
size, angle, color and counter keep the `Shape` defaults), and then
`x`, `y` are overwritten with `start_x`, `start_y`.  The `radius` and
`spokes` arguments configure only the owned batch, embedded as
`wheelShapeList`. -/
def wheelEntity (start_x start_y dx dy dAngle : ℚ) : Entity :=
  { kind := .wheel,
    state := { shapeInit 0 0 20 20 0 dx dy dAngle [255, 0, 0] with
               x := start_x, y := start_y } }

/-- `BouncingBall.__init__` as far as the kinematic state is concerned:
`super().__init__` is called with only `delta_x`, `delta_y` (so the
state keeps the default size 20x20 and default color), then `x`, `y`
are overwritten; the `width`, `height`, `color` arguments configure only
the single ellipse of the owned batch. -/
def ballEntity (start_x start_y dx dy : ℚ) : Entity :=
  { kind := .bouncingBall,
    state := { shapeInit 0 0 20 20 0 dx dy 0 [255, 0, 0] with
               x := start_x, y := start_y } }

/-- The seven entities appended by one iteration of the loop in
`GamePlay.setup`: one snow drop, the four wheels (left edge, right edge,
top edge, bottom edge) and the two bouncing balls, in program order. -/
def setupIteration (n : ℕ) (r : SnowRand) : List Entity :=
  [mkSnowDrop n r,
   wheelEntity 0 sceneCy 1 0 1,
   wheelEntity SCREEN_WIDTH sceneCy (-1) 0 (-1),
   wheelEntity sceneCx SCREEN_HEIGHT 0 (-2) 4,
   wheelEntity sceneCx 0 0 2 (-4),
   ballEntity 0 0 4 4,
   ballEntity SCREEN_WIDTH 0 (-4) 4]

/-- `GamePlay.setup`: the loop `for n in range(numSnowDrops)` appends
`setupIteration n` to `shapeList` on every iteration — the wheel and
ball constructions are nested inside the snow loop in the source. -/
def setup (rnd : ℕ → SnowRand) : ℕ → List Entity
  | 0 => []
  | n + 1 => setup rnd n ++ setupIteration n (rnd n)

/-- Number of entities of a given class in a scene list. -/
def countKind (k : EKind) : List Entity → ℕ
  | [] => 0
  | e :: rest => (if e.kind = k then 1 else 0) + countKind k rest

/-- Primitive shape descriptors handed to the batch: `arcade.create_line`,
`arcade.create_ellipse` and `arcade.create_ellipse_filled`. -/
inductive Prim (α : Type) where
  | line (start_x start_y end_x end_y : α) (color : List ℕ) (lineWidth : α)
  | ellipse (center_x center_y width height : α) (color : List ℕ)
  | ellipseFilled (center_x center_y width height : α) (color : List ℕ)
deriving DecidableEq

/-- An `arcade.ShapeElementList`: a mutable world transform plus the
retained list of primitives appended at construction time. -/
structure Batch (α : Type) where
  center_x : ℚ
  center_y : ℚ
  angle : ℚ
  shapes : List (Prim α)
deriving DecidableEq

/-- A render call issued to the backend, carrying the batch as it is at
the moment of the call. -/
inductive RenderCall (α : Type) where
  | draw (b : Batch α)
deriving DecidableEq

/-- `Shape.draw`: write `center_x`, `center_y`, `angle` of the owned
batch from the entity's current state (three sequential assignments),
then issue the batch's draw call.  The entity state is returned
unchanged because the method never assigns to `self`. -/
def shapeDraw {α : Type} (s : ShapeState) (b : Batch α) :
    ShapeState × Batch α × RenderCall α :=
  let b1 : Batch α := { b with center_x := s.x }
  let b2 : Batch α := { b1 with center_y := s.y }
  let b3 : Batch α := { b2 with angle := s.angle }
  (s, b3, RenderCall.draw b3)

/-- The fixed three-color palette `self.colors` of `Wheel.__init__`. -/
def wheelColors : List (List ℕ) := [[255, 0, 0], [0, 255, 0], [0, 0, 255]]

/-- The two primitives appended for spoke `n` in `Wheel.__init__`: the
line from the origin to the endpoint at angle `n * stepAngle` and
distance `radius` (line width `0.1 * radius`), and the outer disc of
size `0.3 * radius` centered at 1.2 times the endpoint, both in the
palette color `n % len(colors)`. -/
def spokePrims {α : Type} [Field α] (stepAngle radius : α)
    (cosf sinf : α → α) (n : ℕ) : List (Prim α) :=
  let a := (n : α) * stepAngle
  let end_x := radius * cosf a
  let end_y := radius * sinf a
  let color := wheelColors.getD (n % wheelColors.length) []
  [Prim.line 0 0 end_x end_y color ((1 / 10 : α) * radius),
   Prim.ellipse ((12 / 10 : α) * end_x) ((12 / 10 : α) * end_y)
     ((3 / 10 : α) * radius) ((3 / 10 : α) * radius) color]

/-- The spoke loop of `Wheel.__init__`: iterations `0, ..., n-1`, each
appending its two primitives at the end of the batch. -/
def wheelSpokes {α : Type} [Field α] (stepAngle radius : α)
    (cosf sinf : α → α) : ℕ → List (Prim α)
  | 0 => []
  | n + 1 =>
      wheelSpokes stepAngle radius cosf sinf n ++
        spokePrims stepAngle radius cosf sinf n

/-- The full batch content built by `Wheel.__init__`: the spoke loop with
`stepAngle = (2 * pi) / spokes`, followed by the single black center
disc of size `0.15 * radius` appended last. -/
def wheelShapeList {α : Type} [Field α] (pi : α) (cosf sinf : α → α)
    (radius : α) (spokes : ℕ) : List (Prim α) :=
  let stepAngle := (2 * pi) / (spokes : α)
  wheelSpokes stepAngle radius cosf sinf spokes ++
    [Prim.ellipse 0 0 ((15 / 100 : α) * radius) ((15 / 100 : α) * radius)
      [0, 0, 0]]

/-- Runtime errors of the Python interpreter that the embedding makes
explicit. -/
inductive PyError where
  | zeroDivisionError
deriving DecidableEq, Repr

/-- `Wheel.__init__` including Python's division semantics: the very
first statement of the construction evaluates
`stepAngle = (2 * math.pi) / spokes`, and Python's `/` raises an
uncaught `ZeroDivisionError` when `spokes == 0` — there is no explicit
precondition check in the source, the construction aborts with the
interpreter error before any primitive is built. -/
def wheelInit {α : Type} [Field α] (pi : α) (cosf sinf : α → α)
    (radius : α) (spokes : ℕ) : Except PyError (List (Prim α)) :=
  if spokes = 0 then Except.error PyError.zeroDivisionError
  else Except.ok (wheelShapeList pi cosf sinf radius spokes)

/-- Concrete probe state for the bounce claim on the horizontal axis:
`x = 0`, `delta_x = -2`, well inside the screen vertically. -/
def bounceProbe : ShapeState := shapeInit 0 100 20 20 0 (-2) 0 0 [255, 0, 0]

/-- Concrete probe state for the bounce claim on the vertical axis:
`y = 0`, `delta_y = -2`, well inside the screen horizontally. -/
def bounceProbeY : ShapeState := shapeInit 100 0 20 20 0 0 (-2) 0 [255, 0, 0]

/-- Concrete probe state for the zig-zag claim. -/
def zigzagProbe : ShapeState :=
  shapeInit 10 100 4 4 0 (1 / 2) (3 / 5) 0 [255, 255, 255, 255]

/-- Concrete probe state for the counter-invariant claim. -/
def countProbe : ShapeState :=
  shapeInit 30 200 4 4 0 (7 / 10) (1 / 2) 0 [255, 255, 255, 255]

/-- Concrete snow-drop entity below the bottom edge with zero deltas:
its first `move()` wraps it to the top even though it is not moving. -/
def sinkProbe : Entity :=
  { kind := .snowDrop,
    state := shapeInit 0 (-1) 4 4 0 0 0 0 [255, 255, 255, 255] }

/-- Concrete snow-drop entity inside the screen with zero deltas. -/
def fixProbe : Entity :=
  { kind := .snowDrop,
    state := shapeInit 5 7 4 4 0 0 0 0 [255, 255, 255, 255] }

/-- Concrete two-entity scene for the ordering claim. -/
def orderProbe : List Entity :=
  [wheelEntity 3 4 1 0 1, ballEntity 9 8 4 4]

/-- Projection: `Shape.move` always sets `x` to `x + delta_x`. -/
lemma shapeMove_x (s : ShapeState) : (shapeMove s).x = s.x + s.delta_x := by
  simp only [shapeMove]
  split_ifs <;> rfl

/-- Projection: `Shape.move` always sets `y` to `y + delta_y`. -/
lemma shapeMove_y (s : ShapeState) : (shapeMove s).y = s.y + s.delta_y := by
  simp only [shapeMove]
  split_ifs <;> rfl

/-- Characterization of the horizontal bounce of `Shape.move` in terms of
the pre-state: the two x-checks cannot both fire because the updated
position cannot be below 0 and above `SCREEN_WIDTH` at once. -/
lemma shapeMove_delta_x (s : ShapeState) :
    (shapeMove s).delta_x =
      if s.x + s.delta_x < 0 ∧ s.delta_x < 0 then -s.delta_x
      else if s.x + s.delta_x > SCREEN_WIDTH ∧ s.delta_x > 0 then -s.delta_x
      else s.delta_x := by
  simp only [shapeMove]
  split_ifs <;>
    first
      | rfl
      | (exfalso; norm_num [SCREEN_WIDTH, SCREEN_HEIGHT] at *; linarith)

/-- Characterization of the vertical bounce of `Shape.move` in terms of
the pre-state. -/
lemma shapeMove_delta_y (s : ShapeState) :
    (shapeMove s).delta_y =
      if s.y + s.delta_y < 0 ∧ s.delta_y < 0 then -s.delta_y
      else if s.y + s.delta_y > SCREEN_HEIGHT ∧ s.delta_y > 0 then -s.delta_y
      else s.delta_y := by
  simp only [shapeMove]
  split_ifs <;>
    first
      | rfl
      | (exfalso; norm_num [SCREEN_WIDTH, SCREEN_HEIGHT] at *; linarith)

/-- Projection: the counter after `SnowDrop.move`. -/
lemma snowMove_count (s : ShapeState) :
    (snowMove s).count = if s.count + 1 > 4 then 0 else s.count + 1 := by
  simp only [snowMove]
  split_ifs <;> rfl

/-- Projection: `delta_x` after `SnowDrop.move`. -/
lemma snowMove_delta_x (s : ShapeState) :
    (snowMove s).delta_x = if s.count + 1 > 4 then -s.delta_x else s.delta_x := by
  simp only [snowMove]
  split_ifs <;> rfl

/-- Projection: `SnowDrop.move` never changes `delta_y`. -/
lemma snowMove_delta_y (s : ShapeState) : (snowMove s).delta_y = s.delta_y := by
  simp only [snowMove]
  split_ifs <;> rfl

/-- Projection: `SnowDrop.move` never changes `delta_angle`. -/
lemma snowMove_delta_angle (s : ShapeState) :
    (snowMove s).delta_angle = s.delta_angle := by
  simp only [snowMove]
  split_ifs <;> rfl

/-- Projection: `y` after `SnowDrop.move` — the decremented value, or the
wrap position when the decremented value is below 0. -/
lemma snowMove_y (s : ShapeState) :
    (snowMove s).y =
      if s.y - s.delta_y < 0 then SCREEN_HEIGHT + 10 else s.y - s.delta_y := by
  simp only [snowMove]
  split_ifs <;> rfl

/-- Projection: `x` after `SnowDrop.move`. -/
lemma snowMove_x (s : ShapeState) : (snowMove s).x = s.x + s.delta_x := by
  simp only [snowMove]
  split_ifs <;> rfl

/-- The (`count`, `delta_x`) pair of `SnowDrop.move` follows `cdStep`. -/
lemma snowMove_cd (s : ShapeState) :
    ((snowMove s).count, (snowMove s).delta_x) = cdStep (s.count, s.delta_x) := by
  simp only [snowMove_count, snowMove_delta_x, cdStep]
  split_ifs <;> rfl

/-- Iterated form of `snowMove_cd`. -/
lemma iterate_cd (s : ShapeState) (k : ℕ) :
    ((snowMove^[k] s).count, (snowMove^[k] s).delta_x) =
      cdStep^[k] (s.count, s.delta_x) := by
  induction k with
  | zero => rfl
  | succ n ih =>
      rw [Function.iterate_succ_apply', Function.iterate_succ_apply',
        snowMove_cd, ih]

/-- A full 5-tick block of the counter dynamics from `count = 0` negates
`delta_x` once and returns the counter to 0. -/
lemma cdStep_block (d : ℚ) (m : ℕ) :
    cdStep^[5 * m] (0, d) = (0, (-1 : ℚ) ^ m * d) := by
  induction m with
  | zero => simp
  | succ n ih =>
      have h5 : 5 * (n + 1) = 5 + 5 * n := by ring
      rw [h5, Function.iterate_add_apply, ih]
      show cdStep (cdStep (cdStep (cdStep (cdStep (0, (-1 : ℚ) ^ n * d))))) = _
      simp [cdStep, pow_succ]

/-- `Shape.move` is the identity on a state whose three deltas are zero:
the position update adds zero and none of the four bounce guards can
fire. -/
lemma shapeMove_zero (s : ShapeState) (h : zeroDeltas s) : shapeMove s = s := by
  obtain ⟨hx, hy, ha⟩ := h
  simp only [shapeMove, hx, hy, ha]
  split_ifs <;> simp_all
  cases s
  simp_all

/-- `move` dispatch never changes the class of an entity. -/
lemma entityMove_kind (e : Entity) : (entityMove e).kind = e.kind := by
  simp only [entityMove]
  split <;> rfl

/-- One tick with zero deltas: position is preserved and the zero-delta
and in-screen conditions are maintained (for a snow drop the vertical
wrap cannot fire because `y - 0 = y ≥ 0`). -/
lemma entityMove_zero_step (e : Entity) (h : zeroDeltas e.state)
    (hy : e.kind = .snowDrop → 0 ≤ e.state.y) :
    (entityMove e).state.x = e.state.x ∧ (entityMove e).state.y = e.state.y ∧
    zeroDeltas (entityMove e).state ∧
    ((entityMove e).kind = .snowDrop → 0 ≤ (entityMove e).state.y) := by
  obtain ⟨hx, hy', ha⟩ := h
  rcases hk : e.kind with k | k | k
  · have hst : (entityMove e).state = snowMove e.state := by
      simp only [entityMove, hk]
    have hy0 : 0 ≤ e.state.y := hy hk
    have hyy : (snowMove e.state).y = e.state.y := by
      rw [snowMove_y, hy']
      rw [if_neg]
      · ring
      · simp only [sub_zero]
        linarith
    refine ⟨?_, ?_, ⟨?_, ?_, ?_⟩, ?_⟩
    · rw [hst, snowMove_x, hx, add_zero]
    · rw [hst, hyy]
    · rw [hst, snowMove_delta_x, hx]
      split_ifs <;> simp
    · rw [hst, snowMove_delta_y, hy']
    · rw [hst, snowMove_delta_angle, ha]
    · intro _
      rw [hst, hyy]
      exact hy0
  all_goals {
    have hst : (entityMove e).state = shapeMove e.state := by
      simp only [entityMove, hk]
    have hid : shapeMove e.state = e.state := shapeMove_zero _ ⟨hx, hy', ha⟩
    rw [hst, hid]
    refine ⟨rfl, rfl, ⟨hx, hy', ha⟩, ?_⟩
    rw [entityMove_kind, hk]
    intro hcon
    exact absurd hcon (by simp)
  }

/-- Invariant form of the zero-delta claim, carried through any number of
ticks. -/
lemma zero_delta_inv (e : Entity) (h : zeroDeltas e.state)
    (hy : e.kind = .snowDrop → 0 ≤ e.state.y) (N : ℕ) :
    zeroDeltas (entityMove^[N] e).state ∧
    ((entityMove^[N] e).kind = .snowDrop → 0 ≤ (entityMove^[N] e).state.y) ∧
    (entityMove^[N] e).state.x = e.state.x ∧
    (entityMove^[N] e).state.y = e.state.y := by
  induction N with
  | zero => exact ⟨h, hy, rfl, rfl⟩
  | succ n ih =>
      obtain ⟨ih1, ih2, ih3, ih4⟩ := ih
      obtain ⟨s1, s2, s3, s4⟩ := entityMove_zero_step (entityMove^[n] e) ih1 ih2
      rw [Function.iterate_succ_apply']
      exact ⟨s3, s4, by rw [s1, ih3], by rw [s2, ih4]⟩

/-- `on_update` visits every entity, so the list length is preserved. -/
lemma onUpdate_length (l : List Entity) : (onUpdate l).length = l.length := by
  induction l with
  | nil => rfl
  | cons e rest ih => simp [onUpdate, ih]

/-- `on_draw` issues one render event per entity. -/
lemma onDrawEvents_length (l : List Entity) :
    (onDrawEvents l).length = l.length := by
  induction l with
  | nil => rfl
  | cons e rest ih => simp [onDrawEvents, ih]

/-- Class counts add over list concatenation. -/
lemma countKind_append (k : EKind) (l l' : List Entity) :
    countKind k (l ++ l') = countKind k l + countKind k l' := by
  induction l with
  | nil => simp [countKind]
  | cons e rest ih =>
      simp [countKind, ih]
      ring

/-- The spoke loop appends exactly two primitives per spoke. -/
lemma wheelSpokes_length {α : Type} [Field α] (st r : α) (cosf sinf : α → α)
    (S : ℕ) : (wheelSpokes st r cosf sinf S).length = 2 * S := by
  induction S with
  | zero => rfl
  | succ n ih =>
      simp [wheelSpokes, ih, spokePrims]
      ring

/-- Indexing into the spoke loop output: position `2n + j` (with `j < 2`)
holds the `j`-th primitive of spoke `n`. -/
lemma wheelSpokes_getD {α : Type} [Field α] (st r : α) (cosf sinf : α → α)
    (S n j : ℕ) (hn : n < S) (hj : j < 2) (d : Prim α) :
    (wheelSpokes st r cosf sinf S).getD (2 * n + j) d =
      (spokePrims st r cosf sinf n).getD j d := by
  induction S with
  | zero => omega
  | succ m ih =>
      rcases Nat.lt_succ_iff_lt_or_eq.mp hn with hlt | heq
      · rw [wheelSpokes, List.getD_append]
        · exact ih hlt
        · rw [wheelSpokes_length]
          omega
      · subst heq
        rw [wheelSpokes, List.getD_append_right]
        · rw [wheelSpokes_length]
          congr 1
          omega
        · rw [wheelSpokes_length]
          omega

/-- Claim C1: the bounce rule of `Shape.move` is edge-triggered on
velocity direction, not level-triggered on containment, on either axis.
If the updated position on an axis leaves the screen on the side the
entity is moving towards (below 0 with a negative delta on that axis, or
above the screen extent — `SCREEN_WIDTH` horizontally, `SCREEN_HEIGHT`
vertically — with a positive delta), the delta on that axis is negated
on that tick; on the following tick, while the entity is moving back
inward, that delta is not negated again even though the position may
still be out of bounds. -/
theorem bounce_edge_triggered (s : ShapeState) :
    ((s.x + s.delta_x < 0 ∧ s.delta_x < 0 ∧ s.x ≤ SCREEN_WIDTH) ∨
     (SCREEN_WIDTH < s.x + s.delta_x ∧ 0 < s.delta_x ∧ 0 ≤ s.x) →
      (shapeMove s).delta_x = -s.delta_x ∧
      (shapeMove (shapeMove s)).delta_x = -s.delta_x) ∧
    ((s.y + s.delta_y < 0 ∧ s.delta_y < 0 ∧ s.y ≤ SCREEN_HEIGHT) ∨
     (SCREEN_HEIGHT < s.y + s.delta_y ∧ 0 < s.delta_y ∧ 0 ≤ s.y) →
      (shapeMove s).delta_y = -s.delta_y ∧
      (shapeMove (shapeMove s)).delta_y = -s.delta_y) := by
  constructor
  · rintro (⟨h1, h2, h3⟩ | ⟨h1, h2, h3⟩)
    · have e1 : (shapeMove s).delta_x = -s.delta_x := by
        rw [shapeMove_delta_x, if_pos ⟨h1, h2⟩]
      refine ⟨e1, ?_⟩
      rw [shapeMove_delta_x, shapeMove_x, e1]
      have n1 : ¬(s.x + s.delta_x + -s.delta_x < 0 ∧ -s.delta_x < 0) := by
        rintro ⟨ha, hb⟩
        linarith
      have n2 : ¬(s.x + s.delta_x + -s.delta_x > SCREEN_WIDTH ∧
          -s.delta_x > 0) := by
        rintro ⟨ha, hb⟩
        linarith
      rw [if_neg n1, if_neg n2]
    · have e1 : (shapeMove s).delta_x = -s.delta_x := by
        rw [shapeMove_delta_x, if_neg, if_pos ⟨h1, h2⟩]
        rintro ⟨ha, hb⟩
        linarith
      refine ⟨e1, ?_⟩
      rw [shapeMove_delta_x, shapeMove_x, e1]
      have n1 : ¬(s.x + s.delta_x + -s.delta_x < 0 ∧ -s.delta_x < 0) := by
        rintro ⟨ha, hb⟩
        linarith
      have n2 : ¬(s.x + s.delta_x + -s.delta_x > SCREEN_WIDTH ∧
          -s.delta_x > 0) := by
        rintro ⟨ha, hb⟩
        linarith
      rw [if_neg n1, if_neg n2]
  · rintro (⟨h1, h2, h3⟩ | ⟨h1, h2, h3⟩)
    · have e1 : (shapeMove s).delta_y = -s.delta_y := by
        rw [shapeMove_delta_y, if_pos ⟨h1, h2⟩]
      refine ⟨e1, ?_⟩
      rw [shapeMove_delta_y, shapeMove_y, e1]
      have n1 : ¬(s.y + s.delta_y + -s.delta_y < 0 ∧ -s.delta_y < 0) := by
        rintro ⟨ha, hb⟩
        linarith
      have n2 : ¬(s.y + s.delta_y + -s.delta_y > SCREEN_HEIGHT ∧
          -s.delta_y > 0) := by
        rintro ⟨ha, hb⟩
        linarith
      rw [if_neg n1, if_neg n2]
    · have e1 : (shapeMove s).delta_y = -s.delta_y := by
        rw [shapeMove_delta_y, if_neg, if_pos ⟨h1, h2⟩]
        rintro ⟨ha, hb⟩
        linarith
      refine ⟨e1, ?_⟩
      rw [shapeMove_delta_y, shapeMove_y, e1]
      have n1 : ¬(s.y + s.delta_y + -s.delta_y < 0 ∧ -s.delta_y < 0) := by
        rintro ⟨ha, hb⟩
        linarith
      have n2 : ¬(s.y + s.delta_y + -s.delta_y > SCREEN_HEIGHT ∧
          -s.delta_y > 0) := by
        rintro ⟨ha, hb⟩
        linarith
      rw [if_neg n1, if_neg n2]

/-- Witness for claim C1, exercising both axes at concrete inputs: an
entity at `x = 0` with `delta_x = -2` has `delta_x = 2` after one tick
and still `delta_x = 2` after the next tick, and an entity at `y = 0`
with `delta_y = -2` has `delta_y = 2` after one tick and still
`delta_y = 2` after the next tick. -/
theorem bounce_edge_triggered_witness :
    ((shapeMove bounceProbe).delta_x = 2 ∧
     (shapeMove (shapeMove bounceProbe)).delta_x = 2) ∧
    ((shapeMove bounceProbeY).delta_y = 2 ∧
     (shapeMove (shapeMove bounceProbeY)).delta_y = 2) := by
  have hx := (bounce_edge_triggered bounceProbe).1
    (Or.inl (by norm_num [bounceProbe, shapeInit, SCREEN_WIDTH]))
  have hy := (bounce_edge_triggered bounceProbeY).2
    (Or.inl (by norm_num [bounceProbeY, shapeInit, SCREEN_HEIGHT]))
  refine ⟨⟨?_, ?_⟩, ⟨?_, ?_⟩⟩
  · rw [hx.1]
    norm_num [bounceProbe, shapeInit]
  · rw [hx.2]
    norm_num [bounceProbe, shapeInit]
  · rw [hy.1]
    norm_num [bounceProbeY, shapeInit]
  · rw [hy.2]
    norm_num [bounceProbeY, shapeInit]

/-- Claim C2 (code evaluation): because the wheel and ball constructions
are nested inside the snow loop of `GamePlay.setup`, a scene configured
with `N` snow drops contains `N` snow-drop entities but `4 * N` wheel
entities and `2 * N` bouncing-ball entities (`7 * N` entities in all) —
not the fixed four wheels and two balls the specification states.  At
the default `numSnowDrops = 250` this is 1000 wheels and 500 balls. -/
theorem setup_composition_counts (rnd : ℕ → SnowRand) (N : ℕ) :
    countKind .snowDrop (setup rnd N) = N ∧
    countKind .wheel (setup rnd N) = 4 * N ∧
    countKind .bouncingBall (setup rnd N) = 2 * N ∧
    (setup rnd N).length = 7 * N := by
  induction N with
  | zero => exact ⟨rfl, rfl, rfl, rfl⟩
  | succ n ih =>
      obtain ⟨ih1, ih2, ih3, ih4⟩ := ih
      have hs : countKind .snowDrop (setupIteration n (rnd n)) = 1 := by
        simp [setupIteration, countKind, mkSnowDrop, wheelEntity, ballEntity]
      have hw : countKind .wheel (setupIteration n (rnd n)) = 4 := by
        simp [setupIteration, countKind, mkSnowDrop, wheelEntity, ballEntity]
      have hb : countKind .bouncingBall (setupIteration n (rnd n)) = 2 := by
        simp [setupIteration, countKind, mkSnowDrop, wheelEntity, ballEntity]
      have hl : (setupIteration n (rnd n)).length = 7 := by
        simp [setupIteration]
      refine ⟨?_, ?_, ?_, ?_⟩
      · rw [setup, countKind_append, ih1, hs]
      · rw [setup, countKind_append, ih2, hw]
        ring
      · rw [setup, countKind_append, ih3, hb]
        ring
      · rw [setup, List.length_append, ih4, hl]
        ring

/-- Claim C3: starting from counter 0, a snow drop's `delta_x` keeps its
value for the first four ticks of every 5-tick block (while the counter
runs 1, 2, 3, 4) and is negated exactly at the fifth tick, when the
counter exceeds 4 and is reset to 0; after `5 * m + k` ticks (`k ≤ 4`)
the counter is `k` and `delta_x` carries the sign `(-1) ^ m`. -/
theorem snowdrop_zigzag_period (s : ShapeState) (h : s.count = 0) (m k : ℕ)
    (hk : k ≤ 4) :
    (snowMove^[5 * m + k] s).delta_x = (-1 : ℚ) ^ m * s.delta_x ∧
    (snowMove^[5 * m + k] s).count = k := by
  have hpair := iterate_cd s (5 * m + k)
  rw [h] at hpair
  have hr : cdStep^[5 * m + k] ((0 : ℕ), s.delta_x) =
      (k, (-1 : ℚ) ^ m * s.delta_x) := by
    rw [Nat.add_comm, Function.iterate_add_apply, cdStep_block]
    interval_cases k <;> simp [cdStep]
  rw [hr] at hpair
  exact ⟨congrArg Prod.snd hpair, congrArg Prod.fst hpair⟩

/-- Witness for claim C3: after `5 * 1 + 2 = 7` ticks from counter 0 the
lateral delta has flipped exactly once and the counter is 2. -/
theorem snowdrop_zigzag_period_witness :
    (snowMove^[5 * 1 + 2] zigzagProbe).delta_x =
      (-1 : ℚ) ^ 1 * zigzagProbe.delta_x ∧
    (snowMove^[5 * 1 + 2] zigzagProbe).count = 2 :=
  snowdrop_zigzag_period zigzagProbe rfl 1 2 (by norm_num)

/-- Claim C4: `SnowDrop.move` decrements `y` by `delta_y`; when the
decremented value is below 0 the drop is wrapped to exactly
`SCREEN_HEIGHT + 10`, otherwise `y` keeps the decremented value; and
`delta_y` is never changed (wrap, not bounce). -/
theorem snowdrop_vertical_wrap (s : ShapeState) :
    (snowMove s).y =
      (if s.y - s.delta_y < 0 then SCREEN_HEIGHT + 10 else s.y - s.delta_y) ∧
    (snowMove s).delta_y = s.delta_y :=
  ⟨snowMove_y s, snowMove_delta_y s⟩

/-- Claim C5: for spoke count `S ≥ 1` and radius `R ≥ 0`, the wheel batch
holds exactly `2 * S + 1` primitives; for each spoke `n < S` the
primitive at position `2n` is the line from the origin to the point at
angle `n * (2π / S)` and distance `R` (color `palette[n % 3]`, width
`0.1 * R`), the primitive at position `2n + 1` is the outer disc of size
`0.3 * R` centered at 1.2 times that endpoint, the final primitive (at
position `2S`) is the black center disc of size `0.15 * R`, and the
spoke endpoint indeed lies at Euclidean distance `R` from the origin. -/
theorem wheel_batch_composition (S : ℕ) (hS : 1 ≤ S) (R : ℝ) (hR : 0 ≤ R)
    (n : ℕ) (hn : n < S) :
    (wheelShapeList Real.pi Real.cos Real.sin R S).length = 2 * S + 1 ∧
    (wheelShapeList Real.pi Real.cos Real.sin R S).getD (2 * n)
        (Prim.ellipse 0 0 0 0 []) =
      Prim.line 0 0 (R * Real.cos ((n : ℝ) * ((2 * Real.pi) / (S : ℝ))))
        (R * Real.sin ((n : ℝ) * ((2 * Real.pi) / (S : ℝ))))
        (wheelColors.getD (n % 3) []) ((1 / 10 : ℝ) * R) ∧
    (wheelShapeList Real.pi Real.cos Real.sin R S).getD (2 * n + 1)
        (Prim.ellipse 0 0 0 0 []) =
      Prim.ellipse
        ((12 / 10 : ℝ) * (R * Real.cos ((n : ℝ) * ((2 * Real.pi) / (S : ℝ)))))
        ((12 / 10 : ℝ) * (R * Real.sin ((n : ℝ) * ((2 * Real.pi) / (S : ℝ)))))
        ((3 / 10 : ℝ) * R) ((3 / 10 : ℝ) * R)
        (wheelColors.getD (n % 3) []) ∧
    (wheelShapeList Real.pi Real.cos Real.sin R S).getD (2 * S)
        (Prim.ellipse 0 0 0 0 []) =
      Prim.ellipse 0 0 ((15 / 100 : ℝ) * R) ((15 / 100 : ℝ) * R) [0, 0, 0] ∧
    Real.sqrt ((R * Real.cos ((n : ℝ) * ((2 * Real.pi) / (S : ℝ)))) ^ 2 +
        (R * Real.sin ((n : ℝ) * ((2 * Real.pi) / (S : ℝ)))) ^ 2) = R := by
  have hlen : (wheelShapeList Real.pi Real.cos Real.sin R S).length =
      2 * S + 1 := by
    simp [wheelShapeList, wheelSpokes_length]
  have hunfold : wheelShapeList Real.pi Real.cos Real.sin R S =
      wheelSpokes ((2 * Real.pi) / (S : ℝ)) R Real.cos Real.sin S ++
        [Prim.ellipse 0 0 ((15 / 100 : ℝ) * R) ((15 / 100 : ℝ) * R)
          [0, 0, 0]] := rfl
  refine ⟨hlen, ?_, ?_, ?_, ?_⟩
  · rw [hunfold, List.getD_append]
    · have hg := wheelSpokes_getD ((2 * Real.pi) / (S : ℝ)) R Real.cos Real.sin
        S n 0 hn (by omega) (Prim.ellipse 0 0 0 0 [])
      rw [Nat.add_zero] at hg
      rw [hg]
      rfl
    · rw [wheelSpokes_length]
      omega
  · rw [hunfold, List.getD_append]
    · have hg := wheelSpokes_getD ((2 * Real.pi) / (S : ℝ)) R Real.cos Real.sin
        S n 1 hn (by omega) (Prim.ellipse 0 0 0 0 [])
      rw [hg]
      rfl
    · rw [wheelSpokes_length]
      omega
  · rw [hunfold, List.getD_append_right]
    · rw [wheelSpokes_length]
      simp
    · rw [wheelSpokes_length]
  · have hpyth : (R * Real.cos ((n : ℝ) * ((2 * Real.pi) / (S : ℝ)))) ^ 2 +
        (R * Real.sin ((n : ℝ) * ((2 * Real.pi) / (S : ℝ)))) ^ 2 = R ^ 2 := by
      have hc := Real.sin_sq_add_cos_sq ((n : ℝ) * ((2 * Real.pi) / (S : ℝ)))
      nlinarith [hc]
    rw [hpyth]
    exact Real.sqrt_sq hR

/-- Witness for claim C5 at the specification's test point `S = 3`,
`R = 50`, spoke `n = 1`: seven primitives, with the stated line, outer
disc and center disc, and the endpoint at distance 50. -/
theorem wheel_batch_composition_witness :
    (wheelShapeList Real.pi Real.cos Real.sin (50 : ℝ) 3).length = 2 * 3 + 1 ∧
    (wheelShapeList Real.pi Real.cos Real.sin (50 : ℝ) 3).getD (2 * 1)
        (Prim.ellipse 0 0 0 0 []) =
      Prim.line 0 0
        ((50 : ℝ) * Real.cos ((1 : ℕ) * ((2 * Real.pi) / ((3 : ℕ) : ℝ))))
        ((50 : ℝ) * Real.sin ((1 : ℕ) * ((2 * Real.pi) / ((3 : ℕ) : ℝ))))
        (wheelColors.getD (1 % 3) []) ((1 / 10 : ℝ) * 50) ∧
    (wheelShapeList Real.pi Real.cos Real.sin (50 : ℝ) 3).getD (2 * 1 + 1)
        (Prim.ellipse 0 0 0 0 []) =
      Prim.ellipse
        ((12 / 10 : ℝ) *
          ((50 : ℝ) * Real.cos ((1 : ℕ) * ((2 * Real.pi) / ((3 : ℕ) : ℝ)))))
        ((12 / 10 : ℝ) *
          ((50 : ℝ) * Real.sin ((1 : ℕ) * ((2 * Real.pi) / ((3 : ℕ) : ℝ)))))
        ((3 / 10 : ℝ) * 50) ((3 / 10 : ℝ) * 50)
        (wheelColors.getD (1 % 3) []) ∧
    (wheelShapeList Real.pi Real.cos Real.sin (50 : ℝ) 3).getD (2 * 3)
        (Prim.ellipse 0 0 0 0 []) =
      Prim.ellipse 0 0 ((15 / 100 : ℝ) * 50) ((15 / 100 : ℝ) * 50) [0, 0, 0] ∧
    Real.sqrt
        (((50 : ℝ) * Real.cos ((1 : ℕ) * ((2 * Real.pi) / ((3 : ℕ) : ℝ)))) ^ 2 +
          ((50 : ℝ) * Real.sin ((1 : ℕ) * ((2 * Real.pi) / ((3 : ℕ) : ℝ)))) ^ 2) =
      50 :=
  wheel_batch_composition 3 (by norm_num) 50 (by norm_num) 1 (by norm_num)

/-- Counterexample to claim C6 as stated: a snow drop resting at
`y = -1` with all deltas zero does not keep its position — its first
`move()` wraps it to `y = SCREEN_HEIGHT + 10 = 570`. -/
theorem zero_delta_counterexample :
    zeroDeltas sinkProbe.state ∧
    (entityMove sinkProbe).state.y ≠ sinkProbe.state.y := by
  refine ⟨⟨rfl, rfl, rfl⟩, ?_⟩
  norm_num [entityMove, snowMove, sinkProbe, shapeInit, SCREEN_HEIGHT]

/-- Claim C6 (amended): for every entity with all three deltas zero —
and, if it is a snow drop, with `y ≥ 0` — any number of ticks leaves the
position `(x, y)` unchanged. -/
theorem zero_delta_position_fixed (e : Entity) (N : ℕ)
    (h : zeroDeltas e.state) (hy : e.kind = .snowDrop → 0 ≤ e.state.y) :
    (entityMove^[N] e).state.x = e.state.x ∧
    (entityMove^[N] e).state.y = e.state.y := by
  obtain ⟨-, -, h3, h4⟩ := zero_delta_inv e h hy N
  exact ⟨h3, h4⟩

/-- Witness for the amended claim C6: a concrete motionless snow drop at
`(5, 7)` is still at `(5, 7)` after three ticks. -/
theorem zero_delta_position_fixed_witness :
    (entityMove^[3] fixProbe).state.x = fixProbe.state.x ∧
    (entityMove^[3] fixProbe).state.y = fixProbe.state.y :=
  zero_delta_position_fixed fixProbe 3
    (by refine ⟨rfl, rfl, rfl⟩)
    (by intro _; norm_num [fixProbe, shapeInit])

/-- Claim C7: each tick applies `move()` to every entity of the scene
list exactly once, in insertion order, with no reordering or filtering
(the updated list has the same length and its `i`-th element is the
moved `i`-th entity), and each frame issues one draw event per entity in
the same insertion order, so later-inserted entities render on top. -/
theorem tick_and_draw_in_insertion_order (l : List Entity) (i : ℕ)
    (h : i < l.length) :
    (onUpdate l).length = l.length ∧
    (onDrawEvents l).length = l.length ∧
    (onUpdate l).getD i defaultEntity = entityMove (l.getD i defaultEntity) ∧
    (onDrawEvents l).getD i (0, 0, 0) =
      entityDrawEvent (l.getD i defaultEntity) := by
  refine ⟨onUpdate_length l, onDrawEvents_length l, ?_, ?_⟩
  · induction l generalizing i with
    | nil => simp at h
    | cons e rest ih =>
        cases i with
        | zero => rfl
        | succ j =>
            simp only [onUpdate, List.getD_cons_succ]
            exact ih j (by simpa using h)
  · induction l generalizing i with
    | nil => simp at h
    | cons e rest ih =>
        cases i with
        | zero => rfl
        | succ j =>
            simp only [onDrawEvents, List.getD_cons_succ]
            exact ih j (by simpa using h)

/-- Witness for claim C7 on a concrete two-entity scene, at index 1. -/
theorem tick_and_draw_in_insertion_order_witness :
    (onUpdate orderProbe).length = orderProbe.length ∧
    (onDrawEvents orderProbe).length = orderProbe.length ∧
    (onUpdate orderProbe).getD 1 defaultEntity =
      entityMove (orderProbe.getD 1 defaultEntity) ∧
    (onDrawEvents orderProbe).getD 1 (0, 0, 0) =
      entityDrawEvent (orderProbe.getD 1 defaultEntity) :=
  tick_and_draw_in_insertion_order orderProbe 1 (by norm_num [orderProbe])

/-- Claim C8 (code evaluation): constructing a wheel with spoke count
zero makes the very first statement of `Wheel.__init__` — the step-angle
division `(2 * math.pi) / spokes` — raise an uncaught
`ZeroDivisionError`.  Construction does abort before any primitive is
built, but through the interpreter error, not through the explicit
precondition check the specification calls for: the source contains no
guard. -/
theorem wheelInit_zero_spokes_error (pi : ℚ) (cosf sinf : ℚ → ℚ)
    (radius : ℚ) :
    wheelInit pi cosf sinf radius 0 =
      Except.error PyError.zeroDivisionError := rfl

/-- Claim C9: `Shape.draw` writes only the batch's world transform
(`center_x`, `center_y`, `angle`) from the entity's current state and
then issues the batch's render call; the batch's primitive list and
every field of the entity itself are left unchanged. -/
theorem draw_writes_only_transform {α : Type} (s : ShapeState) (b : Batch α) :
    (shapeDraw s b).1 = s ∧
    ((shapeDraw s b).2.1).shapes = b.shapes ∧
    ((shapeDraw s b).2.1).center_x = s.x ∧
    ((shapeDraw s b).2.1).center_y = s.y ∧
    ((shapeDraw s b).2.1).angle = s.angle ∧
    (shapeDraw s b).2.2 = RenderCall.draw ((shapeDraw s b).2.1) :=
  ⟨rfl, rfl, rfl, rfl, rfl, rfl⟩

/-- Claim C10: a snow drop whose counter starts at 0 keeps its counter in
the range 0..4 after every number of `move()` calls (the counter is a
natural number, so the lower bound is definitional): it is incremented
each tick and reset to 0 in the same tick whenever it would exceed 4, so
it never grows without bound. -/
theorem snowdrop_count_invariant (s : ShapeState) (h : s.count = 0) (k : ℕ) :
    (snowMove^[k] s).count ≤ 4 := by
  have hpair := iterate_cd s k
  have hfst : ∀ (n : ℕ) (p : ℕ × ℚ), p.1 ≤ 4 → (cdStep^[n] p).1 ≤ 4 := by
    intro n
    induction n with
    | zero => intro p hp; exact hp
    | succ n ih =>
        intro p hp
        rw [Function.iterate_succ_apply]
        apply ih
        simp only [cdStep]
        split_ifs <;> omega
  have hk := hfst k (s.count, s.delta_x) (by rw [h]; norm_num)
  have hc := congrArg Prod.fst hpair
  simp only at hc
  rw [hc]
  exact hk

/-- Witness for claim C10: after nine ticks from counter 0 the counter of
a concrete snow drop is still at most 4. -/
theorem snowdrop_count_invariant_witness :
    (snowMove^[9] countProbe).count ≤ 4 :=
  snowdrop_count_invariant countProbe rfl 9
